import Mathlib

/-!
Verification of the natural-language specification of mozilla_ci_tools
against a shallow Lean embedding of its three source files
(`mozci/mozci.py`, `mozci/sources/buildapi.py`, `mozci/sources/pushlog.py`).

External collaborators (the HTTP transport, the `allthethings` builder
catalog, the `platforms` upstream-builder mapping, the `buildjson` detailed
status store, and the per-URL reachability probe) are modelled as oracle
functions collected in an `Env` record: each Python call into one of those
modules becomes an application of the corresponding oracle field.  Python
exceptions are modelled with `Except String`; the carried string names the
raised condition.  Dictionaries coming from JSON are modelled as structures
whose `Option` fields distinguish an absent key from a present one, and the
`properties` dictionary as an association list so that absent keys and
empty dictionaries are both expressible.
-/

set_option autoImplicit false

deriving instance DecidableEq for Except

namespace Mozci

/-- Buildbot status constants, from `buildapi.py`:
`PENDING, RUNNING, UNKNOWN = range(-3, 0)` and
`SUCCESS, WARNING, FAILURE, SKIPPED, EXCEPTION, RETRY, CANCELLED = range(7)`. -/
def PENDING : Int := -3

def RUNNING : Int := -2

def UNKNOWN : Int := -1

def SUCCESS : Int := 0

def WARNING : Int := 1

def FAILURE : Int := 2

def SKIPPED : Int := 3

def EXCEPTION : Int := 4

def RETRY : Int := 5

def CANCELLED : Int := 6

/-- `buildapi.HOST_ROOT`. -/
def HOST_ROOT : String := "https://secure.pub.build.mozilla.org/buildapi/self-serve"

/-- One entry of a job's `requests` array: the fields `_find_files` reads. -/
structure JobRequest where
  complete_at : Int
  request_id : Int
deriving DecidableEq

/-- One job dictionary as returned by self-serve for a revision.
`status` is `none` when the `"status"` key is absent, `some none` when it is
present with value `null`, and `some (some s)` when it holds the integer `s`.
`endtime` records whether the `"endtime"` key is present (its value is never
read, only its presence). -/
structure Job where
  buildername : String
  status : Option (Option Int) := none
  endtime : Bool := false
  requests : List JobRequest := []
deriving DecidableEq

/-- `job.get("status")` as used by the scan in `_determine_trigger_objective`:
an absent key and a present-but-null value both give `None`. -/
def job_get_status (j : Job) : Option Int :=
  match j.status with
  | none => none
  | some none => none
  | some (some s) => some s

/-- The detailed job status returned by `buildjson.query_job_data`.
`properties` is `none` when the key is absent or null, and otherwise the
dictionary as an association list (so the Python-falsy empty dictionary is
`some []`). -/
structure JobStatusData where
  properties : Option (List (String × String)) := none
deriving DecidableEq

/-- A trigger receipt: the `requests.post` response object, reduced to the
field the code reads. -/
structure Request where
  status_code : Int
deriving DecidableEq

/-- The payload posted by `trigger_job`: the `branch`/`revision` properties
plus the optional `files` entry (JSON serialisation abstracted away). -/
structure Payload where
  branch : String
  revision : String
  files : Option (List String) := none
deriving DecidableEq

/-- The oracle environment standing for every external collaborator.
Fields follow the Python call signatures:
`valid_revision repo rev` is `buildapi.valid_revision` (the DONTBUILD probe),
`jobs repo rev` is the job list self-serve would return for a schedulable
revision, `valid_builder` is membership in the `allthethings` catalog,
`determine_upstream_builder buildername repo` is the platforms mapping,
`query_job_data complete_at request_id` is the `buildjson` lookup,
`url_ok` is the per-URL reachability probe used by `_all_urls_reachable`,
and `make_request url payload i` is the response to the `i`-th POST of a
trigger loop. -/
structure Env where
  valid_revision : String → String → Bool
  jobs : String → String → List Job
  valid_builder : String → Bool
  determine_upstream_builder : String → String → String
  query_job_data : Int → Int → Option JobStatusData
  url_ok : String → Bool
  make_request : String → Payload → Nat → Request

/-- `buildapi.query_jobs_schedule`: raises `BuildapiException` when the
revision is not valid for buildapi, otherwise returns the job list. -/
def query_jobs_schedule (env : Env) (repo_name revision : String) :
    Except String (List Job) :=
  if env.valid_revision repo_name revision = false then
    .error "BuildapiException"
  else
    .ok (env.jobs repo_name revision)

/-- `mozci.query_jobs`: delegates to `buildapi.query_jobs_schedule`. -/
def query_jobs (env : Env) (repo_name revision : String) :
    Except String (List Job) :=
  query_jobs_schedule env repo_name revision

/-- `mozci._matching_jobs`: the jobs whose `buildername` equals the given
one, in input order. -/
def _matching_jobs (buildername : String) (all_jobs : List Job) : List Job :=
  all_jobs.filter (fun j => j.buildername == buildername)

/-- `mozci.utils.misc._all_urls_reachable` is imported by `mozci.py` but its
module is not part of the sources.  Modelled from the spec: missing
`_all_urls_reachable` (`checkAllReachable`), which "probes each URL
(e.g., HTTP HEAD); returns true only if every URL responds successfully".
So it holds exactly when every listed URL passes the per-URL probe. -/
def _all_urls_reachable (url_ok : String → Bool) (urls : List String) : Bool :=
  urls.all url_ok

/-- Outcome of the status scan inside `_determine_trigger_objective`:
the values of the `successful_job` / `running_job` locals after the loop. -/
inductive ScanOutcome where
  | successful (job : Job)
  | running (job : Job)
  | noneFound
deriving DecidableEq

/-- The `for job in matching_jobs` loop of `_determine_trigger_objective`:
a job whose `job.get("status")` is `None` is recorded as running and the
loop breaks; a job with status `0` is recorded as successful and the loop
breaks; any other status is skipped. -/
def _scan_matching_jobs : List Job → ScanOutcome
  | [] => .noneFound
  | job :: rest =>
    match job_get_status job with
    | none => .running job
    | some s => if s = 0 then .successful job else _scan_matching_jobs rest

/-- `mozci._find_files`: reads `complete_at`/`request_id` from the job's
first request entry, fetches the detailed status from buildjson, requires
it to be non-empty and to carry a non-empty `properties` dictionary that
has a `buildername` key (the logging line reads `properties["buildername"]`
eagerly), then collects `packageUrl` and `testsUrl` in that order, each
only when present. -/
def _find_files (env : Env) (scheduled_job_info : Job) :
    Except String (List String) :=
  match scheduled_job_info.requests with
  | [] => .error "IndexError: requests"
  | req :: _ =>
    match env.query_job_data req.complete_at req.request_id with
    | none => .error "We should not have received an empty status"
    | some job_status =>
      match job_status.properties with
      | none => .error "The status of the job is expected to have a properties key"
      | some [] => .error "The status of the job is expected to have a properties key"
      | some props =>
        match props.lookup "buildername" with
        | none => .error "KeyError: buildername"
        | some _ =>
          let files : List String := []
          let files :=
            match props.lookup "packageUrl" with
            | some u => files ++ [u]
            | none => files
          let files :=
            match props.lookup "testsUrl" with
            | some u => files ++ [u]
            | none => files
          .ok files

/-- `mozci._determine_trigger_objective`: resolve the upstream build
builder (the Python `assert valid_builder(build_buildername)` becomes an
error when the oracle rejects it), fetch the revision's jobs, filter to the
build builder, and decide from the scan outcome:
no matching job or only unsuccessful finished ones → trigger the build
builder with `files = None`; first scan hit successful → trigger the
requested builder with the found files when they are all reachable, else
the build builder with `files = []`; first scan hit running → trigger
nothing.  The returned pair is Python's `(trigger, files)`. -/
def _determine_trigger_objective (env : Env)
    (repo_name revision buildername : String) :
    Except String (Option String × Option (List String)) :=
  let build_buildername := env.determine_upstream_builder buildername repo_name
  if env.valid_builder build_buildername = false then
    .error "Our platforms mapping system has failed."
  else
    match query_jobs env repo_name revision with
    | .error e => .error e
    | .ok all_jobs =>
      let matching_jobs := _matching_jobs build_buildername all_jobs
      if matching_jobs.length = 0 then
        .ok (some build_buildername, none)
      else
        match _scan_matching_jobs matching_jobs with
        | .successful job =>
          match _find_files env job with
          | .error e => .error e
          | .ok files =>
            if _all_urls_reachable env.url_ok files = false then
              .ok (some build_buildername, some [])
            else
              .ok (some buildername, some files)
        | .running _ => .ok (none, none)
        | .noneFound => .ok (some build_buildername, none)

/-- `buildapi.query_job_status`: an absent `"status"` key is `PENDING`; a
null status is `RUNNING` when `"endtime"` is present and `UNKNOWN`
otherwise; the integer statuses `SUCCESS`, `WARNING`, `FAILURE`,
`EXCEPTION`, `RETRY` and `CANCELLED` are returned as-is; any other integer
(including `SKIPPED`) raises `Exception("Unexpected status")`. -/
def query_job_status (job : Job) : Except String Int :=
  match job.status with
  | none => .ok PENDING
  | some none => if job.endtime then .ok RUNNING else .ok UNKNOWN
  | some (some status) =>
    if status = SUCCESS ∨ status = WARNING ∨ status = FAILURE ∨
        status = EXCEPTION ∨ status = RETRY ∨ status = CANCELLED then
      .ok status
    else
      .error "Unexpected status"

/-- `buildapi.make_request`: posts and asserts the response is not a 401
(`assert req.status_code != 401`); the response itself is the oracle's
answer for this call index. -/
def make_request (env : Env) (url : String) (payload : Payload) (i : Nat) :
    Except String Request :=
  let req := env.make_request url payload i
  if req.status_code = 401 then .error "AssertionError: 401" else .ok req

/-- The `for _ in range(times)` loop of `trigger_job`, started at call
index `i`: each iteration appends one receipt; a 401 assertion failure
aborts the loop and propagates. -/
def make_requests (env : Env) (url : String) (payload : Payload) :
    Nat → Nat → Except String (List Request)
  | _, 0 => .ok []
  | i, n + 1 =>
    match make_request env url payload i with
    | .error e => .error e
    | .ok req =>
      match make_requests env url payload (i + 1) n with
      | .error e => .error e
      | .ok rest => .ok (req :: rest)

/-- The `if files: ... else: ...` decision step of `trigger_job`: a truthy
`files` argument (present and non-empty) short-circuits to the requested
builder with those files (the reachability probe on that branch is called
only for its side effect and is dropped here); otherwise the objective is
computed by `_determine_trigger_objective`. -/
def trigger_decision (env : Env) (repo_name revision buildername : String)
    (files : Option (List String)) :
    Except String (Option String × Option (List String)) :=
  match files with
  | some fs =>
    if fs.isEmpty = false then .ok (some buildername, some fs)
    else _determine_trigger_objective env repo_name revision buildername
  | none => _determine_trigger_objective env repo_name revision buildername

/-- The payload `trigger_job` builds: branch and revision always; the
`files` entry only when `files` is truthy (present and non-empty). -/
def trigger_payload (repo_name revision : String)
    (files : Option (List String)) : Payload :=
  { branch := repo_name
    revision := revision
    files :=
      match files with
      | some fs => if fs.isEmpty then none else some fs
      | none => none }

/-- The self-serve endpoint URL `trigger_job` posts to. -/
def trigger_url (repo_name trigger revision : String) : String :=
  HOST_ROOT ++ "/" ++ repo_name ++ "/builders/" ++ trigger ++ "/" ++ revision

/-- `mozci.trigger_job`: returns the list of receipts of the requests it
made.  An unschedulable revision returns `[]` immediately; an invalid
builder name calls `exit(-1)`, modelled as an error; when a builder is
decided, `times` posts are made unless `dry_run` is set, in which case the
intended action is only logged and no receipt is produced. -/
def trigger_job (env : Env) (repo_name revision buildername : String)
    (times : Nat) (files : Option (List String)) (dry_run : Bool) :
    Except String (List Request) :=
  if env.valid_revision repo_name revision = false then .ok []
  else if env.valid_builder buildername = false then
    .error "exit(-1): the builder requested is invalid"
  else
    match trigger_decision env repo_name revision buildername files with
    | .error e => .error e
    | .ok (trigger, files2) =>
      match trigger with
      | none => .ok []
      | some t =>
        let payload := trigger_payload repo_name revision files2
        let url := trigger_url repo_name t revision
        if dry_run = false then make_requests env url payload 0 times
        else .ok []

/-- The status-counting loop of `trigger_range`: classifies every matching
job with `buildapi.query_job_status` (a classification error propagates)
and tallies `(pending_jobs, running_jobs, successful_jobs)`. -/
def count_statuses : List Job → Except String (Nat × Nat × Nat)
  | [] => .ok (0, 0, 0)
  | job :: rest =>
    match query_job_status job with
    | .error e => .error e
    | .ok status =>
      match count_statuses rest with
      | .error e => .error e
      | .ok (p, r, s) =>
        .ok (if status = PENDING then p + 1 else p,
             if status = RUNNING then r + 1 else r,
             if status = SUCCESS then s + 1 else s)

/-- The per-revision `potential_jobs` count of `trigger_range`: the sum of
pending, running and successful matching jobs, after the same job query
the loop body performs. -/
def count_potential (env : Env) (buildername repo_name revision : String) :
    Except String Nat :=
  match query_jobs_schedule env repo_name revision with
  | .error e => .error e
  | .ok jobs =>
    match count_statuses (_matching_jobs buildername jobs) with
    | .error e => .error e
    | .ok (p, r, s) => .ok (p + r + s)

/-- `mozci.trigger_range`: for each revision in order, query its jobs,
count the potential (pending + running + successful) matching jobs, and
when the potential falls short of `times` call `trigger_job` for the
shortfall (the non-202 receipts only produce a log line).  The Python
function returns nothing; to make its effects observable the embedding
returns, per processed revision, the receipts of the requests made for it
(`[]` for a skipped revision).  Any exception raised while processing a
revision propagates and aborts the whole loop, as in the source. -/
def trigger_range (env : Env) (buildername repo_name : String) :
    List String → Nat → Bool → Except String (List (String × List Request))
  | [], _, _ => .ok []
  | rev :: rest, times, dry_run =>
    match query_jobs_schedule env repo_name rev with
    | .error e => .error e
    | .ok jobs =>
      match count_statuses (_matching_jobs buildername jobs) with
      | .error e => .error e
      | .ok (pending_jobs, running_jobs, successful_jobs) =>
        let potential_jobs := pending_jobs + running_jobs + successful_jobs
        if times ≤ potential_jobs then
          match trigger_range env buildername repo_name rest times dry_run with
          | .error e => .error e
          | .ok tail => .ok ((rev, []) :: tail)
        else
          match trigger_job env repo_name rev buildername
              (times - potential_jobs) none dry_run with
          | .error e => .error e
          | .ok reqs =>
            match trigger_range env buildername repo_name rest times dry_run with
            | .error e => .error e
            | .ok tail => .ok ((rev, reqs) :: tail)

/-- Python's `needle in haystack` on character lists. -/
def list_in (needle : List Char) : List Char → Bool
  | [] => needle.isEmpty
  | c :: rest => needle.isPrefixOf (c :: rest) || list_in needle rest

/-- Python's substring test `repo_name in buildername`. -/
def str_in (needle haystack : String) : Bool :=
  list_in needle.toList haystack.toList

/-- The message of the exception `query_repo_name_from_buildername`
raises when no repository name occurs in the buildername. -/
def repo_not_found_msg : String :=
  "Repository name not found in buildername. Please provide a correct buildername."

/-- `mozci.query_repo_name_from_buildername`: scans the repository catalog
(`catalog clobber`: the cached list for `clobber = false`, the freshly
fetched one for `clobber = true`) for the first name occurring in the
buildername.  When none is found and `clobber` is false it recurses with
`clobber = true` but DISCARDS the returned value (the Python call's result
is not assigned), so `ret_val` stays `None` and the exception is raised;
an exception from the recursive call propagates. -/
def query_repo_name_from_buildername (catalog : Bool → List String)
    (buildername : String) (clobber : Bool) : Except String String :=
  let repositories := catalog clobber
  let ret_val := repositories.find? (fun repo_name => str_in repo_name buildername)
  match ret_val with
  | some r => .ok r
  | none =>
    if _hcl : clobber = false then
      match query_repo_name_from_buildername catalog buildername true with
      | .error e => .error e
      | .ok _ => .error repo_not_found_msg
    else
      .error repo_not_found_msg
termination_by (if clobber then 0 else 1)
decreasing_by rw [_hcl]; decide

/-- Environment for the C1 witness: one failed, then one statusless, then
one successful build job for the upstream builder. -/
def env_c1 : Env where
  valid_revision := fun _ _ => true
  jobs := fun _ _ =>
    [{ buildername := "build-b", status := some (some 2) },
     { buildername := "build-b" },
     { buildername := "build-b", status := some (some 0) }]
  valid_builder := fun _ => true
  determine_upstream_builder := fun _ _ => "build-b"
  query_job_data := fun _ _ => none
  url_ok := fun _ => true
  make_request := fun _ _ _ => { status_code := 202 }

/-- Environment for the C2 witness: one successful build job whose
detailed status carries both canonical artifacts; every URL reachable. -/
def env_c2 : Env where
  valid_revision := fun _ _ => true
  jobs := fun _ _ =>
    [{ buildername := "build-b", status := some (some 0), endtime := true,
       requests := [{ complete_at := 5, request_id := 77 }] }]
  valid_builder := fun _ => true
  determine_upstream_builder := fun _ _ => "build-b"
  query_job_data := fun c r =>
    if c = 5 ∧ r = 77 then
      some { properties := [("buildername", "build-b"),
                            ("packageUrl", "http://x/pkg"),
                            ("testsUrl", "http://x/tests")] }
    else none
  url_ok := fun _ => true
  make_request := fun _ _ _ => { status_code := 202 }

/-- Environment for the C3 witness: the matching build jobs all finished
non-successfully (failure and retry). -/
def env_c3 : Env where
  valid_revision := fun _ _ => true
  jobs := fun _ _ =>
    [{ buildername := "build-b", status := some (some 2) },
     { buildername := "other" },
     { buildername := "build-b", status := some (some 5) }]
  valid_builder := fun _ => true
  determine_upstream_builder := fun _ _ => "build-b"
  query_job_data := fun _ _ => none
  url_ok := fun _ => true
  make_request := fun _ _ _ => { status_code := 202 }

/-- Environment for C4: a successful build job whose detailed status has a
`packageUrl` but NO `testsUrl`; every URL probe answers reachable. -/
def env_c4 : Env where
  valid_revision := fun _ _ => true
  jobs := fun _ _ =>
    [{ buildername := "build-b", status := some (some 0), endtime := true,
       requests := [{ complete_at := 9, request_id := 42 }] }]
  valid_builder := fun _ => true
  determine_upstream_builder := fun _ _ => "build-b"
  query_job_data := fun c r =>
    if c = 9 ∧ r = 42 then
      some { properties := [("buildername", "build-b"),
                            ("packageUrl", "http://x/pkg")] }
    else none
  url_ok := fun _ => true
  make_request := fun _ _ _ => { status_code := 202 }

/-- Environment for C5: revision `r1` is not schedulable (its changeset
carries DONTBUILD, so `valid_revision` is false), revision `r2` is. -/
def env_c5 : Env where
  valid_revision := fun _ rev => rev != "r1"
  jobs := fun _ _ => []
  valid_builder := fun _ => true
  determine_upstream_builder := fun _ _ => "build-b"
  query_job_data := fun _ _ => none
  url_ok := fun _ => true
  make_request := fun _ _ _ => { status_code := 202 }

/-- Environment for C6: the revision has a statusless (hence running)
upstream build job and no job at all for the requested builder, so the
potential is 0 but the trigger objective is to wait. -/
def env_c6 : Env where
  valid_revision := fun _ _ => true
  jobs := fun _ _ => [{ buildername := "build-b" }]
  valid_builder := fun _ => true
  determine_upstream_builder := fun _ _ => "build-b"
  query_job_data := fun _ _ => none
  url_ok := fun _ => true
  make_request := fun _ _ _ => { status_code := 202 }

/-- Environment for C7: no revision is schedulable. -/
def env_c7 : Env where
  valid_revision := fun _ _ => false
  jobs := fun _ _ => []
  valid_builder := fun _ => true
  determine_upstream_builder := fun _ _ => "build-b"
  query_job_data := fun _ _ => none
  url_ok := fun _ => true
  make_request := fun _ _ _ => { status_code := 202 }

/-- Environment for C8: the first POST of a loop is answered with a 500
(a failed but collected receipt), every later one with a 202. -/
def env_c8 : Env where
  valid_revision := fun _ _ => true
  jobs := fun _ _ => []
  valid_builder := fun _ => true
  determine_upstream_builder := fun _ _ => "build-b"
  query_job_data := fun _ _ => none
  url_ok := fun _ => true
  make_request := fun _ _ i => if i = 0 then { status_code := 500 } else { status_code := 202 }

/-- Repository catalog for C10: the cached copy (no clobber) is stale and
empty; the freshly fetched copy (clobber) knows `mozilla-central`. -/
def catalog_c10 : Bool → List String :=
  fun clobber => if clobber then ["mozilla-central"] else []

/-- The scan skips over every matching job that finished with a
non-success status. -/
theorem scan_append_of_terminal (pre rest : List Job)
    (h : ∀ j ∈ pre, ∃ k : Int, job_get_status j = some k ∧ k ≠ 0) :
    _scan_matching_jobs (pre ++ rest) = _scan_matching_jobs rest := by
  induction pre with
  | nil => rfl
  | cons j pre ih =>
    obtain ⟨k, hk, hk0⟩ := h j (List.mem_cons_self j pre)
    have htail := ih (fun j' hj' => h j' (List.mem_cons_of_mem j hj'))
    simp only [List.cons_append, _scan_matching_jobs, hk, if_neg hk0]
    exact htail

/-- A list of finished non-successful jobs scans to `noneFound`. -/
theorem scan_terminal_noneFound (l : List Job)
    (h : ∀ j ∈ l, ∃ k : Int, job_get_status j = some k ∧ k ≠ 0) :
    _scan_matching_jobs l = .noneFound := by
  have := scan_append_of_terminal l [] h
  simpa using this

/-- With a schedulable revision and a valid upstream builder, the
objective is computed from the matching-job list by the scan. -/
theorem determine_objective_unfold (env : Env)
    (repo_name revision buildername : String)
    (hval : env.valid_builder
      (env.determine_upstream_builder buildername repo_name) = true)
    (hrev : env.valid_revision repo_name revision = true) :
    _determine_trigger_objective env repo_name revision buildername =
      (let build_buildername := env.determine_upstream_builder buildername repo_name
       let matching_jobs := _matching_jobs build_buildername (env.jobs repo_name revision)
       if matching_jobs.length = 0 then
         .ok (some build_buildername, none)
       else
         match _scan_matching_jobs matching_jobs with
         | .successful job =>
           match _find_files env job with
           | .error e => .error e
           | .ok files =>
             if _all_urls_reachable env.url_ok files = false then
               .ok (some build_buildername, some [])
             else
               .ok (some buildername, some files)
         | .running _ => .ok (none, none)
         | .noneFound => .ok (some build_buildername, none)) := by
  simp [_determine_trigger_objective, hval, query_jobs, query_jobs_schedule, hrev]

/-- Claim C1: in the scan of the matching job list, the first job in
encounter order whose status is absent or unassigned (all matching jobs
before it finished non-successfully) wins: the objective is to trigger
nothing, regardless of the statuses of all later jobs — even if a later
matching job succeeded. -/
theorem C1_first_statusless_matching_job_wins (env : Env)
    (repo_name revision buildername : String)
    (pre post : List Job) (j : Job)
    (hval : env.valid_builder
      (env.determine_upstream_builder buildername repo_name) = true)
    (hrev : env.valid_revision repo_name revision = true)
    (hmatch : _matching_jobs (env.determine_upstream_builder buildername repo_name)
      (env.jobs repo_name revision) = pre ++ j :: post)
    (hpre : ∀ j' ∈ pre, ∃ k : Int, job_get_status j' = some k ∧ k ≠ 0)
    (hj : job_get_status j = none) :
    _determine_trigger_objective env repo_name revision buildername =
      .ok (none, none) := by
  rw [determine_objective_unfold env repo_name revision buildername hval hrev]
  simp only [hmatch]
  rw [if_neg (by simp)]
  rw [scan_append_of_terminal pre (j :: post) hpre]
  simp only [_scan_matching_jobs, hj]

/-- When the scan meets a successful matching job first and its artifact
extraction yields `files`, the objective is decided by reachability of
`files` alone. -/
theorem objective_of_successful (env : Env)
    (repo_name revision buildername : String) (job : Job) (files : List String)
    (hval : env.valid_builder
      (env.determine_upstream_builder buildername repo_name) = true)
    (hrev : env.valid_revision repo_name revision = true)
    (hscan : _scan_matching_jobs
      (_matching_jobs (env.determine_upstream_builder buildername repo_name)
        (env.jobs repo_name revision)) = .successful job)
    (hfind : _find_files env job = .ok files) :
    _determine_trigger_objective env repo_name revision buildername =
      (if _all_urls_reachable env.url_ok files then
        .ok (some buildername, some files)
      else
        .ok (some (env.determine_upstream_builder buildername repo_name),
          some [])) := by
  rw [determine_objective_unfold env repo_name revision buildername hval hrev]
  have hne : _matching_jobs (env.determine_upstream_builder buildername repo_name)
      (env.jobs repo_name revision) ≠ [] := by
    intro hnil
    rw [hnil] at hscan
    exact absurd hscan (by simp [_scan_matching_jobs])
  rw [if_neg (by simpa [List.length_eq_zero] using hne)]
  simp only [hscan, hfind]
  cases hre : _all_urls_reachable env.url_ok files <;> simp [hre]

/-- Claim C2: when the scan finds a successful matching job first and its
artifact extraction yields `files`, the objective is the requested builder
together with `files` when every URL in `files` is reachable, and the
build builder with an empty file list otherwise. -/
theorem C2_successful_first_objective (env : Env)
    (repo_name revision buildername : String) (job : Job) (files : List String)
    (hval : env.valid_builder
      (env.determine_upstream_builder buildername repo_name) = true)
    (hrev : env.valid_revision repo_name revision = true)
    (hscan : _scan_matching_jobs
      (_matching_jobs (env.determine_upstream_builder buildername repo_name)
        (env.jobs repo_name revision)) = .successful job)
    (hfind : _find_files env job = .ok files) :
    _determine_trigger_objective env repo_name revision buildername =
      (if _all_urls_reachable env.url_ok files then
        .ok (some buildername, some files)
      else
        .ok (some (env.determine_upstream_builder buildername repo_name),
          some [])) :=
  objective_of_successful env repo_name revision buildername job files
    hval hrev hscan hfind

/-- Claim C3: when no job matches the resolved build builder, or every
matching job finished with one of the terminal non-success statuses
failure, exception, retry or cancelled, the objective is the build builder
with no files. -/
theorem C3_no_usable_build_job_triggers_build (env : Env)
    (repo_name revision buildername : String)
    (hval : env.valid_builder
      (env.determine_upstream_builder buildername repo_name) = true)
    (hrev : env.valid_revision repo_name revision = true)
    (hall : _matching_jobs (env.determine_upstream_builder buildername repo_name)
        (env.jobs repo_name revision) = [] ∨
      ∀ j ∈ _matching_jobs (env.determine_upstream_builder buildername repo_name)
          (env.jobs repo_name revision),
        job_get_status j = some FAILURE ∨ job_get_status j = some EXCEPTION ∨
        job_get_status j = some RETRY ∨ job_get_status j = some CANCELLED) :
    _determine_trigger_objective env repo_name revision buildername =
      .ok (some (env.determine_upstream_builder buildername repo_name), none) := by
  rw [determine_objective_unfold env repo_name revision buildername hval hrev]
  rcases hall with hnil | hterm
  · simp [hnil]
  · by_cases hlen : (_matching_jobs
        (env.determine_upstream_builder buildername repo_name)
        (env.jobs repo_name revision)).length = 0
    · simp [hlen]
    · rw [if_neg hlen]
      rw [scan_terminal_noneFound _ (fun j hj => by
        rcases hterm j hj with h | h | h | h
        · exact ⟨FAILURE, h, by decide⟩
        · exact ⟨EXCEPTION, h, by decide⟩
        · exact ⟨RETRY, h, by decide⟩
        · exact ⟨CANCELLED, h, by decide⟩)]

/-- Witness for C1: the failed job is skipped, the statusless job wins,
and the later successful job is never considered. -/
theorem C1_witness :
    _determine_trigger_objective env_c1 "repo" "rev" "b" = .ok (none, none) :=
  C1_first_statusless_matching_job_wins env_c1 "repo" "rev" "b"
    [{ buildername := "build-b", status := some (some 2) }]
    [{ buildername := "build-b", status := some (some 0) }]
    { buildername := "build-b" }
    rfl rfl (by decide)
    (by
      intro j' hj'
      simp only [List.mem_singleton] at hj'
      subst hj'
      exact ⟨2, rfl, by decide⟩)
    rfl

/-- Witness for C2: with both artifacts present and reachable, the
objective is the requested builder with the two artifact URLs. -/
theorem C2_witness :
    _determine_trigger_objective env_c2 "repo" "rev" "b" =
      (if _all_urls_reachable env_c2.url_ok ["http://x/pkg", "http://x/tests"] then
        .ok (some "b", some ["http://x/pkg", "http://x/tests"])
      else
        .ok (some (env_c2.determine_upstream_builder "b" "repo"), some [])) :=
  C2_successful_first_objective env_c2 "repo" "rev" "b"
    { buildername := "build-b", status := some (some 0), endtime := true,
      requests := [{ complete_at := 5, request_id := 77 }] }
    ["http://x/pkg", "http://x/tests"]
    rfl rfl (by decide) (by decide)

/-- Witness for C3: all matching jobs failed or were retried, so the
build builder is triggered with no files. -/
theorem C3_witness :
    _determine_trigger_objective env_c3 "repo" "rev" "b" =
      .ok (some (env_c3.determine_upstream_builder "b" "repo"), none) :=
  C3_no_usable_build_job_triggers_build env_c3 "repo" "rev" "b"
    rfl rfl
    (Or.inr (by
      intro j hj
      simp only [_matching_jobs, env_c3] at hj
      fin_cases hj
      · exact Or.inl rfl
      · exact Or.inr (Or.inr (Or.inl rfl))))

/-- Counterexample to C4: the successful build job's properties hold a
`packageUrl` but no `testsUrl`, every probe answers reachable, and the
objective still triggers the requested builder `"b"` (not the build
builder `"build-b"`) with the non-empty file list `["http://x/pkg"]` —
the code never checks that both canonical artifacts are present. -/
theorem C4_counterexample_single_artifact :
    _determine_trigger_objective env_c4 "repo" "rev" "b" =
      .ok (some "b", some ["http://x/pkg"]) ∧
    _find_files env_c4
      { buildername := "build-b", status := some (some 0), endtime := true,
        requests := [{ complete_at := 9, request_id := 42 }] } =
      .ok ["http://x/pkg"] ∧
    [("buildername", "build-b"), ("packageUrl", "http://x/pkg")].lookup
      "testsUrl" = none := by
  refine ⟨by decide, by decide, by decide⟩

/-- Claim C4 as amended: for a successful build job found first by the
scan, the requested builder is triggered with the extracted file list
exactly when every extracted URL is reachable, and otherwise the build
builder is retriggered with an empty file list; presence of both canonical
artifacts is not required — only the URLs actually extracted are gated. -/
theorem C4_amended_reachability_gate (env : Env)
    (repo_name revision buildername : String) (job : Job) (files : List String)
    (hval : env.valid_builder
      (env.determine_upstream_builder buildername repo_name) = true)
    (hrev : env.valid_revision repo_name revision = true)
    (hscan : _scan_matching_jobs
      (_matching_jobs (env.determine_upstream_builder buildername repo_name)
        (env.jobs repo_name revision)) = .successful job)
    (hfind : _find_files env job = .ok files) :
    (_all_urls_reachable env.url_ok files = true →
      _determine_trigger_objective env repo_name revision buildername =
        .ok (some buildername, some files)) ∧
    (_all_urls_reachable env.url_ok files = false →
      _determine_trigger_objective env repo_name revision buildername =
        .ok (some (env.determine_upstream_builder buildername repo_name),
          some [])) := by
  have hobj := objective_of_successful env repo_name revision buildername
    job files hval hrev hscan hfind
  constructor
  · intro hre
    rw [hobj, if_pos hre]
  · intro hre
    rw [hobj, hre]
    simp

/-- Witness for the amended C4 at the single-artifact environment: the
lone extracted URL is reachable, so the requested builder is triggered
with just that URL. -/
theorem C4_amended_witness :
    (_all_urls_reachable env_c4.url_ok ["http://x/pkg"] = true →
      _determine_trigger_objective env_c4 "repo" "rev" "b" =
        .ok (some "b", some ["http://x/pkg"])) ∧
    (_all_urls_reachable env_c4.url_ok ["http://x/pkg"] = false →
      _determine_trigger_objective env_c4 "repo" "rev" "b" =
        .ok (some (env_c4.determine_upstream_builder "b" "repo"), some [])) :=
  C4_amended_reachability_gate env_c4 "repo" "rev" "b"
    { buildername := "build-b", status := some (some 0), endtime := true,
      requests := [{ complete_at := 9, request_id := 42 }] }
    ["http://x/pkg"]
    rfl rfl (by decide) (by decide)

/-- Claim C7: a revision that is not schedulable makes `trigger_job`
return an empty receipt list at once — no error is raised and no trigger
request is issued, whatever the builder, count, files or dry-run mode. -/
theorem C7_unschedulable_revision_empty_receipts (env : Env)
    (repo_name revision buildername : String) (times : Nat)
    (files : Option (List String)) (dry_run : Bool)
    (h : env.valid_revision repo_name revision = false) :
    trigger_job env repo_name revision buildername times files dry_run =
      .ok [] := by
  simp [trigger_job, h]

/-- Witness for C7 at a concrete unschedulable revision. -/
theorem C7_witness :
    trigger_job env_c7 "repo" "rev" "b" 3 none false = .ok [] :=
  C7_unschedulable_revision_empty_receipts env_c7 "repo" "rev" "b" 3 none
    false rfl

/-- Counterexample to C9: the data model admits the status `Skipped`
(value 3), yet `query_job_status` raises `Exception("Unexpected status")`
on a job that carries it, because `SKIPPED` is missing from the tuple of
accepted integer statuses. -/
theorem C9_counterexample_skipped_status :
    query_job_status { buildername := "b", status := some (some SKIPPED) } =
      .error "Unexpected status" := by
  decide

/-- Claim C9 as amended: the classification succeeds for a job whose
status key is absent (pending), present but null (running or unknown,
by `endtime`), or one of the six accepted integer statuses — success,
warning, failure, exception, retry, cancelled; `Skipped` is excluded. -/
theorem C9_amended_status_classification (job : Job)
    (h : job.status = none ∨ job.status = some none ∨
      ∃ s : Int, job.status = some (some s) ∧
        (s = SUCCESS ∨ s = WARNING ∨ s = FAILURE ∨ s = EXCEPTION ∨
          s = RETRY ∨ s = CANCELLED)) :
    ∃ v, query_job_status job = .ok v := by
  rcases h with h | h | ⟨s, hs, hmem⟩
  · exact ⟨PENDING, by simp [query_job_status, h]⟩
  · cases he : job.endtime
    · exact ⟨UNKNOWN, by simp [query_job_status, h, he]⟩
    · exact ⟨RUNNING, by simp [query_job_status, h, he]⟩
  · refine ⟨s, ?_⟩
    simp only [query_job_status, hs]
    rw [if_pos hmem]

/-- Witness for the amended C9 at a retried job. -/
theorem C9_amended_witness :
    ∃ v, query_job_status { buildername := "b", status := some (some RETRY) }
      = .ok v :=
  C9_amended_status_classification
    { buildername := "b", status := some (some RETRY) }
    (Or.inr (Or.inr ⟨RETRY, rfl, by decide⟩))

/-- Claim C10: when the buildername's repository name is absent from the
cached catalog but present in the freshly fetched one, the clobber-and-
retry recursive call finds it and returns it, yet the outer call discards
that result and still raises the not-found exception. -/
theorem C10_clobber_retry_discarded (catalog : Bool → List String)
    (buildername r : String)
    (habsent : (catalog false).find?
      (fun repo_name => str_in repo_name buildername) = none)
    (hfresh : (catalog true).find?
      (fun repo_name => str_in repo_name buildername) = some r) :
    query_repo_name_from_buildername catalog buildername false =
      .error repo_not_found_msg ∧
    query_repo_name_from_buildername catalog buildername true = .ok r := by
  have h2 : query_repo_name_from_buildername catalog buildername true =
      .ok r := by
    rw [query_repo_name_from_buildername]
    simp [hfresh]
  refine ⟨?_, h2⟩
  rw [query_repo_name_from_buildername]
  simp [habsent, h2]

/-- Witness for C10: `mozilla-central` is missing from the stale cached
catalog but found by the clobbered retry; the outer call still fails. -/
theorem C10_witness :
    query_repo_name_from_buildername catalog_c10
        "Linux mozilla-central build" false = .error repo_not_found_msg ∧
    query_repo_name_from_buildername catalog_c10
        "Linux mozilla-central build" true = .ok "mozilla-central" :=
  C10_clobber_retry_discarded catalog_c10 "Linux mozilla-central build"
    "mozilla-central" (by decide) (by decide)

/-- Claim C5 (evaluation at the failing input): with revision `r1`
unschedulable and `r2` schedulable, `trigger_range` over `[r1, r2]`
aborts with the `BuildapiException` raised by `query_jobs_schedule` while
handling `r1` and never processes `r2`, although `r2` alone is processed
fine — one bad revision kills the whole batch, against the claim (and
against `query_jobs_schedule`'s own docstring, which promises an empty
list when the revision cannot be queried). -/
theorem C5_range_aborts_on_unschedulable_revision :
    trigger_range env_c5 "b" "repo" ["r1", "r2"] 1 false =
      .error "BuildapiException" ∧
    trigger_range env_c5 "b" "repo" ["r2"] 1 false =
      .ok [("r2", [{ status_code := 202 }])] := by
  refine ⟨by decide, by decide⟩

/-- A finished request loop produced exactly one receipt per iteration. -/
theorem make_requests_ok_length (env : Env) (url : String) (payload : Payload) :
    ∀ (n i : Nat) (l : List Request),
      make_requests env url payload i n = .ok l → l.length = n := by
  intro n
  induction n with
  | zero =>
    intro i l h
    simp [make_requests] at h
    simp [← h]
  | succ n ih =>
    intro i l h
    cases hm : make_request env url payload i with
    | error e => simp [make_requests, hm] at h
    | ok req =>
      cases hr : make_requests env url payload (i + 1) n with
      | error e => simp [make_requests, hm, hr] at h
      | ok rest =>
        simp [make_requests, hm, hr] at h
        rw [← h]
        simp [ih (i + 1) rest hr]

/-- When no response in the loop is a 401, the loop returns the receipts
of all its calls, in order. -/
theorem make_requests_no401 (env : Env) (url : String) (payload : Payload) :
    ∀ (n i : Nat),
      (∀ k, k < n → (env.make_request url payload (i + k)).status_code ≠ 401) →
      make_requests env url payload i n =
        .ok ((List.range' i n).map (fun k => env.make_request url payload k)) := by
  intro n
  induction n with
  | zero =>
    intro i _
    simp [make_requests, List.range']
  | succ n ih =>
    intro i h
    have h0 : (env.make_request url payload i).status_code ≠ 401 := by
      have := h 0 (Nat.succ_pos n)
      simpa using this
    have hrest := ih (i + 1) (fun k hk => by
      have := h (k + 1) (Nat.succ_lt_succ hk)
      simpa [Nat.add_assoc, Nat.add_comm, Nat.add_left_comm] using this)
    simp [make_requests, make_request, h0, hrest, List.range']

/-- `trigger_job` either posted nothing or posted exactly the `times` it
was asked for. -/
theorem trigger_job_ok_cases (env : Env)
    (repo_name revision buildername : String) (times : Nat)
    (files : Option (List String)) (dry_run : Bool) (reqs : List Request)
    (h : trigger_job env repo_name revision buildername times files dry_run =
      .ok reqs) :
    reqs = [] ∨ reqs.length = times := by
  by_cases h1 : env.valid_revision repo_name revision = false
  · left
    simp [trigger_job, h1] at h
    exact h
  · by_cases h2 : env.valid_builder buildername = false
    · simp [trigger_job, h1, h2] at h
    · cases hd : trigger_decision env repo_name revision buildername files with
      | error e => simp [trigger_job, h1, h2, hd] at h
      | ok pr =>
        obtain ⟨trig, f2⟩ := pr
        cases trig with
        | none =>
          left
          simp [trigger_job, h1, h2, hd] at h
          exact h
        | some t =>
          cases dry_run with
          | true =>
            left
            simp [trigger_job, h1, h2, hd] at h
            exact h
          | false =>
            right
            simp [trigger_job, h1, h2, hd] at h
            exact make_requests_ok_length env _ _ times 0 reqs h

/-- Claim C8: once `trigger_job` has decided on a builder to trigger (and
the revision and the requested builder passed validation): with `dry_run`
no request is posted and the receipt list is empty; without it exactly
`times` requests are posted sequentially, each contributing one receipt,
and all receipts are returned — including non-accepted (non-202) ones, as
long as none is the fatal 401. -/
theorem C8_trigger_issues_times_requests (env : Env)
    (repo_name revision buildername : String) (times : Nat)
    (files : Option (List String)) (t : String) (files2 : Option (List String))
    (hrev : env.valid_revision repo_name revision = true)
    (hvb : env.valid_builder buildername = true)
    (hdec : trigger_decision env repo_name revision buildername files =
      .ok (some t, files2))
    (h401 : ∀ i, i < times →
      (env.make_request (trigger_url repo_name t revision)
        (trigger_payload repo_name revision files2) i).status_code ≠ 401) :
    trigger_job env repo_name revision buildername times files true = .ok [] ∧
    trigger_job env repo_name revision buildername times files false =
      .ok ((List.range times).map (fun i =>
        env.make_request (trigger_url repo_name t revision)
          (trigger_payload repo_name revision files2) i)) ∧
    ((List.range times).map (fun i =>
      env.make_request (trigger_url repo_name t revision)
        (trigger_payload repo_name revision files2) i)).length = times := by
  refine ⟨?_, ?_, by simp⟩
  · simp [trigger_job, hrev, hvb, hdec]
  · simp only [trigger_job, hrev, hvb, hdec]
    rw [make_requests_no401 env _ _ times 0 (fun k hk => by
      simpa using h401 k hk)]
    rw [List.range_eq_range']
    simp

/-- Witness for C8: two requests with an explicitly supplied file list;
the first receipt is a 500 (failed but collected), the second a 202. -/
theorem C8_witness :
    trigger_job env_c8 "repo" "rev" "b" 2 (some ["f"]) true = .ok [] ∧
    trigger_job env_c8 "repo" "rev" "b" 2 (some ["f"]) false =
      .ok ((List.range 2).map (fun i =>
        env_c8.make_request (trigger_url "repo" "b" "rev")
          (trigger_payload "repo" "rev" (some ["f"])) i)) ∧
    ((List.range 2).map (fun i =>
      env_c8.make_request (trigger_url "repo" "b" "rev")
        (trigger_payload "repo" "rev" (some ["f"])) i)).length = 2 :=
  C8_trigger_issues_times_requests env_c8 "repo" "rev" "b" 2 (some ["f"])
    "b" (some ["f"]) rfl rfl (by decide) (by decide)

/-- Counterexample to C6: for revision `r1` the potential is 0 and
`times` is 1, so the claim demands exactly one additional request, but
the objective resolver sees the statusless (running) upstream build job
and triggers nothing: zero requests are issued although
`times - potential = 1`. -/
theorem C6_counterexample_running_build_zero_requests :
    trigger_range env_c6 "b" "repo" ["r1"] 1 false = .ok [("r1", [])] ∧
    count_potential env_c6 "b" "repo" "r1" = .ok 0 ∧
    1 - 0 = 1 := by
  refine ⟨by decide, by decide, rfl⟩

/-- Claim C6 as amended: in a completed `trigger_range` run, every
processed revision got at most `times - potential` additional requests,
and exactly zero when `potential >= times`. -/
theorem C6_amended_upper_bound (env : Env) (buildername repo_name : String)
    (revs : List String) (times : Nat) (dry_run : Bool)
    (out : List (String × List Request))
    (h : trigger_range env buildername repo_name revs times dry_run = .ok out) :
    ∀ p ∈ out, ∃ cnt, count_potential env buildername repo_name p.1 = .ok cnt ∧
      p.2.length ≤ times - cnt ∧ (times ≤ cnt → p.2.length = 0) := by
  induction revs generalizing out with
  | nil =>
    simp [trigger_range] at h
    subst h
    simp
  | cons rev rest ih =>
    cases hq : query_jobs_schedule env repo_name rev with
    | error e => simp [trigger_range, hq] at h
    | ok jobs =>
      cases hc : count_statuses (_matching_jobs buildername jobs) with
      | error e => simp [trigger_range, hq, hc] at h
      | ok prs =>
        obtain ⟨p, r, s⟩ := prs
        by_cases hge : times ≤ p + r + s
        · cases ht : trigger_range env buildername repo_name rest times dry_run with
          | error e => simp [trigger_range, hq, hc, hge, ht] at h
          | ok tail =>
            simp [trigger_range, hq, hc, hge, ht] at h
            subst h
            intro q hmem
            rcases List.mem_cons.mp hmem with hq' | hq'
            · subst hq'
              exact ⟨p + r + s, by simp [count_potential, hq, hc], by simp,
                fun _ => rfl⟩
            · exact ih tail ht q hq'
        · cases htj : trigger_job env repo_name rev buildername
              (times - (p + r + s)) none dry_run with
          | error e => simp [trigger_range, hq, hc, hge, htj] at h
          | ok reqs =>
            cases ht : trigger_range env buildername repo_name rest times
                dry_run with
            | error e => simp [trigger_range, hq, hc, hge, htj, ht] at h
            | ok tail =>
              simp [trigger_range, hq, hc, hge, htj, ht] at h
              subst h
              intro q hmem
              rcases List.mem_cons.mp hmem with hq' | hq'
              · subst hq'
                refine ⟨p + r + s, by simp [count_potential, hq, hc], ?_, ?_⟩
                · rcases trigger_job_ok_cases env repo_name rev buildername
                      (times - (p + r + s)) none dry_run reqs htj with
                    hnil | hlen
                  · simp [hnil]
                  · simp [hlen]
                · intro hcnt
                  exact absurd hcnt hge
              · exact ih tail ht q hq'

/-- Witness for the amended C6 at the running-build environment: the one
processed revision received zero requests, within the bound. -/
theorem C6_amended_witness :
    ∃ cnt, count_potential env_c6 "b" "repo" ("r1", ([] : List Request)).1 =
        .ok cnt ∧
      ("r1", ([] : List Request)).2.length ≤ 1 - cnt ∧
      (1 ≤ cnt → ("r1", ([] : List Request)).2.length = 0) :=
  C6_amended_upper_bound env_c6 "b" "repo" ["r1"] 1 false
    [("r1", [])] (by decide) ("r1", []) (by simp)

end Mozci
